import Mathlib

/-!
Verification development for the vivia-worker media pipeline.

The repository contains duplicate copies of each component (`src/*.py` and
`src/worker/*.py`); the orchestrator in `src/processor.py` imports the
`worker` copies, so the definitions below embed `src/processor.py` together
with `src/worker/photo_enhancer.py`, `src/worker/video_enhancer.py` and
`src/worker/ai_caption.py`.  The two copies of each component are identical
in every respect the theorems below touch.

External capabilities (HTTP download, the Replicate super-resolution call,
the OpenAI calls, ffmpeg invocations, Supabase uploads) are modelled by
explicit outcome parameters: each run of the pipeline is a pure function of
the environment describing what every external call did.
-/

/-! ## Path model: `pathlib.Path(...).name` and `.suffix` -/

/-- Index (from the left) of the last occurrence of `c` in the list,
modelling Python `str.rfind` when it succeeds. -/
def revFind (c : Char) : List Char → Option Nat
  | [] => none
  | x :: xs =>
    match revFind c xs with
    | some i => some (i + 1)
    | none => if x = c then some 0 else none

/-- Model of `pathlib.PurePath.name`: the final path component — characters after the
last `/`, ignoring trailing slashes. -/
def nameOf (s : List Char) : List Char :=
  (((s.reverse).dropWhile (fun c => c = '/')).takeWhile (fun c => c ≠ '/')).reverse

/-- Model of `pathlib.PurePath.suffix` applied to a name `n`: CPython returns
`n[i:]` for `i = n.rfind('.')` when `0 < i < len(n) - 1`, else the empty
string. -/
def suffixOfName (n : List Char) : List Char :=
  match revFind '.' n with
  | none => []
  | some i => if 0 < i ∧ i < n.length - 1 then n.drop i else []

/-- The value of `Path(p).suffix`, as a `String → String` function. -/
def strSuffix (p : String) : String :=
  String.mk (suffixOfName (nameOf p.toList))

/-- Python `str.lower()` (character-wise lowering suffices here: every
string the code lowers is ASCII). -/
def strToLower (s : String) : String :=
  String.mk (s.toList.map Char.toLower)

/-! ## `src/processor.py` helpers -/

/-- The list `video_exts` from `detect_media_type` in `src/processor.py`. -/
def video_exts : List String := [".mp4", ".mov", ".avi", ".mkv", ".webm"]

/-- Embedding of `detect_media_type` (`src/processor.py` lines 93–98):
`ext = Path(filepath).suffix.lower(); return "video" if ext in video_exts
else "photo"`. -/
def detect_media_type (filepath : String) : String :=
  if strToLower (strSuffix filepath) ∈ video_exts then "video" else "photo"

/-- Where `download_media` (`src/processor.py` lines 77–90) writes the body:
`os.path.join(tempfile.gettempdir(), f"{uuid.uuid4()}{Path(url).suffix}")`;
this is that filepath, with the drawn uuid4 string as a parameter. -/
def download_media_path (uuid : String) (url : String) : String :=
  "/tmp/" ++ (uuid ++ strSuffix url)

deriving instance DecidableEq for Except

/-- Helper: `true` when the computation returned
normally, `false` when it raised. -/
def exceptIsOk {ε α : Type} : Except ε α → Bool
  | .ok _ => true
  | .error _ => false

/-! ## Caption engine (`src/worker/ai_caption.py`) -/

/-- Outcome of the vision-description call (the inner
`openai.chat.completions.create` of `describe_image`): it returns a text or raises. -/
inductive DescribeOutcome where
  | returns (text : String)
  | raises
deriving DecidableEq

/-- Embedding of `describe_image` (`src/worker/ai_caption.py` lines 59–80): the
result of the call, with the fixed generic fallback string when anything raised. -/
def describe_image (o : DescribeOutcome) : String :=
  match o with
  | .returns t => t
  | .raises => "A beautifully captured moment"

/-- A parsed JSON value, as `json.loads` can produce it inside
`generate_captions`: an array of strings, a bare string, or a number.
(The Python code performs no type check on the parsed value.) -/
inductive JsonVal where
  | jlist (xs : List String)
  | jstr (s : String)
  | jnum (n : Int)
deriving DecidableEq

/-- Joint outcome of the caption-generation call and the `json.loads`
parse: the call raised, the content was not valid JSON, or it parsed to
some JSON value. -/
inductive CaptionOutcome where
  | raises
  | unparseable
  | parsed (v : JsonVal)
deriving DecidableEq

/-- The fixed fallback caption list from the `except` handler of
`generate_captions` in `src/worker/ai_caption.py` (the copy the
orchestrator imports). -/
def fallback_captions : List String :=
  ["✨ Capturing the vibe",
   "🔥 Living in the moment",
   "💫 Aesthetic energy",
   "🌟 Pure mood",
   "📸 Vibes only"]

/-- The `try` block of `generate_captions` (`src/worker/ai_caption.py`
lines 14–46): describe the image, call the caption capability, parse the
raw content with `json.loads`, and return whatever value parsed. -/
def generate_captions_try (d : DescribeOutcome) (c : CaptionOutcome) :
    Except String JsonVal :=
  let _description := describe_image d
  match c with
  | .raises => .error "caption call failed"
  | .unparseable => .error "JSONDecodeError"
  | .parsed v => .ok v

/-- Embedding of `CaptionGenerator.generate_captions`: the `try` block wrapped in the
blanket `except Exception` handler that returns the fixed fallback list. -/
def generate_captions (d : DescribeOutcome) (c : CaptionOutcome) :
    Except String JsonVal :=
  match generate_captions_try d c with
  | .ok v => .ok v
  | .error _ => .ok (.jlist fallback_captions)

/-- Python truthiness of a parsed JSON value, as used by
`captions[0] if captions else ""` in `process_media`. -/
def pyTruthy : JsonVal → Bool
  | .jlist xs => !xs.isEmpty
  | .jstr s => !(s.toList.isEmpty)
  | .jnum n => n != 0

/-- Python `captions[0]`: first element of a list, first character of a
string (as a 1-character string), `TypeError` for an int. -/
def pyGetItem0 : JsonVal → Except String String
  | .jlist [] => .error "IndexError"
  | .jlist (x :: _) => .ok x
  | .jstr s =>
    match s.toList with
    | [] => .error "IndexError"
    | ch :: _ => .ok (String.mk [ch])
  | .jnum _ => .error "TypeError"

/-! ## Pipelines (`src/worker/photo_enhancer.py`, `src/worker/video_enhancer.py`) -/

/-- Pixel dimensions of an image. -/
structure ImageDim where
  width : Nat
  height : Nat
deriving DecidableEq

/-- The dict returned by `enhance_photo` / `enhance_video` (same four
keys in both). -/
structure EnhancementResult where
  media_url : String
  thumbnail_url : String
  music_url : Option String
  ai_style : String
deriving DecidableEq

/-- Observable trace of one pipeline run: the returned dict or the
propagated exception, the workspace temp files still on disk when the
call ended, and (photo only) the dimensions the AI-enhance stage
produced. -/
structure PipelineRun where
  result : Except String EnhancementResult
  filesRemaining : List String
  enhancedDims : Option ImageDim
deriving DecidableEq

/-- Behaviour of every external call a photo run makes.  `aiOk` covers the
Replicate call plus the download of its result; `aiDims` is the image the
service returned in that case; the remaining flags are the local PIL
operations and the two Supabase uploads. -/
structure PhotoEnv where
  aiOk : Bool
  aiDims : ImageDim
  aiFallbackOk : Bool
  colorOk : Bool
  filtersOk : Bool
  thumbOk : Bool
  uploadMediaOk : Bool
  uploadThumbOk : Bool
deriving DecidableEq

/-- Result of `get_public_url` for an uploaded object (`upload_to_storage`): filename
is `f"{user_id}/{uuid4()}.{ext}"` in the given bucket. -/
def upload_to_storage_url (bucket user_id objId ext : String) : String :=
  "https://supabase.example.com/" ++ bucket ++ "/" ++ user_id ++ "/" ++ objId ++ "." ++ ext

/-- Embedding of `PhotoEnhancer.ai_enhance` (`src/worker/photo_enhancer.py` lines
59–76): primary Replicate super-resolution call; on any exception, the PIL
fallback `img.resize((img.width * 2, img.height * 2), Image.LANCZOS)`,
which can itself raise (I/O). -/
def ai_enhance (env : PhotoEnv) (inputDims : ImageDim) : Except String ImageDim :=
  if env.aiOk then .ok env.aiDims
  else if env.aiFallbackOk then
    .ok ⟨inputDims.width * 2, inputDims.height * 2⟩
  else .error "ai_enhance failed"

/-- The cleanup loop `for f in slots: if os.path.exists(f): os.remove(f)`
applied to the files currently on disk. -/
def cleanup_loop (slots : List String) (files : List String) : List String :=
  files.filter (fun f => !(slots.contains f))

/-- Embedding of `PhotoEnhancer.enhance_photo` (`src/worker/photo_enhancer.py` lines
22–57): four staged temp files under the temp dir, sequential stages, two
uploads, then the cleanup loop.  The cleanup loop runs only after both
uploads return; an exception anywhere earlier propagates immediately with
the files written so far still on disk. -/
def enhance_photo (env : PhotoEnv) (inputDims : ImageDim)
    (user_id output_id mediaObj thumbObj : String) : PipelineRun :=
  let enhanced := "/tmp/" ++ output_id ++ "_enhanced.jpg"
  let corrected := "/tmp/" ++ output_id ++ "_corrected.jpg"
  let filtered := "/tmp/" ++ output_id ++ "_filtered.jpg"
  let thumbnail := "/tmp/" ++ output_id ++ "_thumb.jpg"
  match ai_enhance env inputDims with
  | .error m => ⟨.error m, [], none⟩
  | .ok d1 =>
    if env.colorOk then
      if env.filtersOk then
        if env.thumbOk then
          if env.uploadMediaOk then
            if env.uploadThumbOk then
              let files := [enhanced, corrected, filtered, thumbnail]
              ⟨.ok { media_url := upload_to_storage_url "processed_media" user_id mediaObj "jpg"
                   , thumbnail_url := upload_to_storage_url "thumbnails" user_id thumbObj "jpg"
                   , music_url := none
                   , ai_style := "enhanced" },
               cleanup_loop files files, some d1⟩
            else ⟨.error "upload thumbnail failed", [enhanced, corrected, filtered, thumbnail], some d1⟩
          else ⟨.error "upload media failed", [enhanced, corrected, filtered, thumbnail], some d1⟩
        else ⟨.error "generate_thumbnail failed", [enhanced, corrected, filtered], some d1⟩
      else ⟨.error "apply_filters failed", [enhanced, corrected], some d1⟩
    else ⟨.error "color_correct failed", [enhanced], some d1⟩

/-- Behaviour of every external call a video run makes: the five ffmpeg
stages, the Replicate upscale (with its ffmpeg fallback), the random draw
for the music track, and the two uploads. -/
structure VideoEnv where
  stabilizeOk : Bool
  gradeOk : Bool
  aiOk : Bool
  upscaleFallbackOk : Bool
  transitionsOk : Bool
  reframeOk : Bool
  thumbOk : Bool
  musicIdx : Fin 3
  uploadMediaOk : Bool
  uploadThumbOk : Bool
deriving DecidableEq

/-- The list `VideoEnhancer.music_library` (`src/worker/video_enhancer.py` lines
14–18). -/
def music_library : List String :=
  ["https://example.com/music/upbeat1.mp3",
   "https://example.com/music/chill1.mp3",
   "https://example.com/music/energetic1.mp3"]

/-- Embedding of `VideoEnhancer.select_music` (`src/worker/video_enhancer.py` lines
154–158): `random.choice(self.music_library)` — the video path parameter
is ignored; `choice` is the uniformly drawn index. -/
def select_music (_videoPath : String) (choice : Fin 3) : String :=
  music_library.getD choice.val ""

/-- Embedding of `VideoEnhancer.upscale_video` (`src/worker/video_enhancer.py` lines
93–119): Replicate primary; on any exception, the local ffmpeg scale
fallback run with `check=True` (non-zero exit raises
`CalledProcessError`). -/
def upscale_video (env : VideoEnv) : Except String Unit :=
  if env.aiOk then .ok ()
  else if env.upscaleFallbackOk then .ok ()
  else .error "upscale_video failed: CalledProcessError"

/-- Embedding of `VideoEnhancer.enhance_video` (`src/worker/video_enhancer.py` lines
20–66): six staged temp files, music selection, two uploads, then the
cleanup loop — which, as in the photo pipeline, runs only on the normal
path. -/
def enhance_video (env : VideoEnv)
    (user_id output_id mediaObj thumbObj : String) : PipelineRun :=
  let stabilized := "/tmp/" ++ output_id ++ "_stabilized.mp4"
  let graded := "/tmp/" ++ output_id ++ "_graded.mp4"
  let upscaled := "/tmp/" ++ output_id ++ "_upscaled.mp4"
  let final := "/tmp/" ++ output_id ++ "_final.mp4"
  let mobile := "/tmp/" ++ output_id ++ "_mobile.mp4"
  let thumbnail := "/tmp/" ++ output_id ++ "_thumb.jpg"
  if env.stabilizeOk then
    if env.gradeOk then
      match upscale_video env with
      | .error m => ⟨.error m, [stabilized, graded], none⟩
      | .ok _ =>
        if env.transitionsOk then
          if env.reframeOk then
            if env.thumbOk then
              if env.uploadMediaOk then
                if env.uploadThumbOk then
                  let files := [stabilized, graded, upscaled, final, mobile, thumbnail]
                  ⟨.ok { media_url := upload_to_storage_url "processed_media" user_id mediaObj "mp4"
                       , thumbnail_url := upload_to_storage_url "thumbnails" user_id thumbObj "jpg"
                       , music_url := some (select_music mobile env.musicIdx)
                       , ai_style := "cinematic" },
                   cleanup_loop files files, none⟩
                else ⟨.error "upload thumbnail failed",
                      [stabilized, graded, upscaled, final, mobile, thumbnail], none⟩
              else ⟨.error "upload media failed",
                    [stabilized, graded, upscaled, final, mobile, thumbnail], none⟩
            else ⟨.error "generate_thumbnail failed",
                  [stabilized, graded, upscaled, final, mobile], none⟩
          else ⟨.error "reframe_to_mobile failed",
                [stabilized, graded, upscaled, final], none⟩
        else ⟨.error "add_transitions failed", [stabilized, graded, upscaled], none⟩
    else ⟨.error "apply_color_grade failed", [stabilized], none⟩
  else ⟨.error "stabilize_video failed", [], none⟩

/-! ## ffmpeg command lines (`src/worker/video_enhancer.py`) -/

/-- The command built by `stabilize_video` (lines 68–77). -/
def stabilize_video_cmd (input output : String) : List String :=
  ["ffmpeg", "-i", input, "-vf", "deshake",
   "-c:v", "libx264", "-preset", "medium", "-c:a", "copy", output]

/-- The command built by `apply_color_grade` (lines 79–91), with
`lut_filter = "curves=vintage"` interpolated. -/
def apply_color_grade_cmd (input output : String) : List String :=
  ["ffmpeg", "-i", input,
   "-vf", "curves=vintage,eq=contrast=1.2:brightness=0.05:saturation=1.3",
   "-c:v", "libx264", "-preset", "medium", "-c:a", "copy", output]

/-- The local fallback command of `upscale_video` (lines 111–119). -/
def upscale_fallback_cmd (input output : String) : List String :=
  ["ffmpeg", "-i", input, "-vf", "scale=1080:1920:flags=lanczos",
   "-c:v", "libx264", "-preset", "medium", output]

/-- The command built by `add_transitions` (lines 121–130). -/
def add_transitions_cmd (input output : String) : List String :=
  ["ffmpeg", "-i", input, "-vf", "fade=in:0:30,fade=out:st=8:d=1",
   "-c:v", "libx264", "-preset", "medium", "-c:a", "copy", output]

/-- The command built by `reframe_to_mobile` (lines 132–141). -/
def reframe_to_mobile_cmd (input output : String) : List String :=
  ["ffmpeg", "-i", input,
   "-vf", "scale=1080:1920:force_original_aspect_ratio=increase,crop=1080:1920",
   "-c:v", "libx264", "-preset", "medium", "-c:a", "copy", output]

/-- Whether an argument vector contains the consecutive pair
`-c:a copy` (the explicit audio-copy codec argument). -/
def hasAudioCopy : List String → Bool
  | a :: b :: rest => (a == "-c:a" && b == "copy") || hasAudioCopy (b :: rest)
  | _ => false

/-! ## Orchestrator (`src/processor.py`, `process_media`) -/

/-- The inbound job (`ProcessRequest`). -/
structure Job where
  job_id : String
  media_url : String
  user_id : String
deriving DecidableEq

/-- The error `HTTPException(status_code=500, detail=str(e))`. -/
structure HTTPErr where
  status : Nat
  detail : String
deriving DecidableEq

/-- The dict `process_media` returns (`ProcessResult`). -/
structure FinalResult where
  media_url : String
  thumbnail_url : String
  caption : String
  captions : JsonVal
  music_url : Option String
  ai_style : String
  media_type : String
deriving DecidableEq

/-- Behaviour of every external call one `process_media` request makes. -/
structure OrchEnv where
  downloadOk : Bool
  photoEnv : PhotoEnv
  videoEnv : VideoEnv
  describeB : DescribeOutcome
  captionB : CaptionOutcome
deriving DecidableEq

/-- The pipeline `process_media` dispatches to after classifying the
downloaded file. -/
def dispatched_run (env : OrchEnv) (job : Job) (uuid : String)
    (dims : ImageDim) (oid mo tho : String) : PipelineRun :=
  if detect_media_type (download_media_path uuid job.media_url) = "video" then
    enhance_video env.videoEnv job.user_id oid mo tho
  else
    enhance_photo env.photoEnv dims job.user_id oid mo tho

/-- The primary-caption expression of `process_media`
(`src/processor.py` line 59): `captions[0] if captions else ""`. -/
def caption_step (captions : JsonVal) : Except String String :=
  if pyTruthy captions then pyGetItem0 captions else .ok ""

/-- The `try` block of `process_media` (`src/processor.py` lines 42–67):
download, classify, dispatch, generate captions, take the primary caption
with `captions[0] if captions else ""`, assemble the result dict. -/
def process_media_body (env : OrchEnv) (job : Job) (uuid : String)
    (dims : ImageDim) (oid mo tho : String) : Except String FinalResult :=
  if env.downloadOk then
    match (dispatched_run env job uuid dims oid mo tho).result with
    | .error m => .error m
    | .ok r =>
      match generate_captions env.describeB env.captionB with
      | .error m => .error m
      | .ok captions =>
        match caption_step captions with
        | .error m => .error m
        | .ok cap =>
          .ok { media_url := r.media_url
              , thumbnail_url := r.thumbnail_url
              , caption := cap
              , captions := captions
              , music_url := r.music_url
              , ai_style := r.ai_style
              , media_type :=
                  detect_media_type (download_media_path uuid job.media_url) }
  else .error "download failed"

/-- Embedding of `process_media` (`src/processor.py` lines 39–70): the `try` block
wrapped in `except Exception as e: raise HTTPException(500, str(e))`. -/
def process_media (env : OrchEnv) (job : Job) (uuid : String)
    (dims : ImageDim) (oid mo tho : String) : Except HTTPErr FinalResult :=
  match process_media_body env job uuid dims oid mo tho with
  | .ok r => .ok r
  | .error m => .error ⟨500, m⟩

/-! ## Lemmas about the path model -/

theorem revFind_eq_none_iff (c : Char) (l : List Char) : revFind c l = none ↔ c ∉ l := by
  induction l with
  | nil => simp [revFind]
  | cons x xs ih =>
    simp only [revFind]
    cases h : revFind c xs with
    | some i =>
      rw [h] at ih
      have hc : c ∈ xs := by
        by_contra hn
        exact Option.noConfusion (ih.mpr hn)
      simp [List.mem_cons, hc]
    | none =>
      rw [h] at ih
      have hx : c ∉ xs := ih.mp rfl
      by_cases hxc : x = c
      · subst hxc
        simp [List.mem_cons]
      · simp only [if_neg hxc, List.mem_cons]
        simp [hx]
        exact fun h2 => hxc h2.symm


theorem revFind_drop (c : Char) (l : List Char) (i : Nat) (h : revFind c l = some i) :
    ∃ t, l.drop i = c :: t ∧ c ∉ t := by
  induction l generalizing i with
  | nil => simp [revFind] at h
  | cons x xs ih =>
    simp only [revFind] at h
    cases hr : revFind c xs with
    | some j =>
      rw [hr] at h
      have hij : j + 1 = i := by injection h
      obtain ⟨t, ht, hnt⟩ := ih j hr
      subst hij
      exact ⟨t, by simpa using ht, hnt⟩
    | none =>
      rw [hr] at h
      by_cases hxc : x = c
      · rw [if_pos hxc] at h
        have h0 : (0 : Nat) = i := by injection h
        subst h0
        subst hxc
        exact ⟨xs, rfl, (revFind_eq_none_iff x xs).mp hr⟩
      · rw [if_neg hxc] at h
        cases h

theorem revFind_append_cons (c : Char) (a t : List Char) (ha : c ∉ a) (ht : c ∉ t) :
    revFind c (a ++ c :: t) = some a.length := by
  induction a with
  | nil => simp [revFind, (revFind_eq_none_iff c t).mpr ht]
  | cons x xs ih =>
    have hx : c ∉ xs := fun h2 => ha (List.mem_cons_of_mem _ h2)
    have hxc : x ≠ c := fun h2 => ha (h2 ▸ List.mem_cons_self _ _)
    simp only [List.cons_append, revFind, List.append_eq, ih hx, List.length_cons]

theorem suffixOfName_shape (n : List Char) :
    suffixOfName n = [] ∨ ∃ t, suffixOfName n = '.' :: t ∧ t ≠ [] ∧ '.' ∉ t := by
  unfold suffixOfName
  cases h : revFind '.' n with
  | none => left; rfl
  | some i =>
    by_cases hc : 0 < i ∧ i < n.length - 1
    · right
      obtain ⟨t, ht, hnt⟩ := revFind_drop '.' n i h
      refine ⟨t, ?_, ?_, hnt⟩
      · show (if 0 < i ∧ i < n.length - 1 then n.drop i else []) = '.' :: t
        rw [if_pos hc, ht]
      · have hlen : (n.drop i).length = n.length - i := List.length_drop i n
        rw [ht] at hlen
        simp only [List.length_cons] at hlen
        intro h0
        rw [h0] at hlen
        simp at hlen
        omega
    · left
      show (if 0 < i ∧ i < n.length - 1 then n.drop i else []) = []
      rw [if_neg hc]

theorem mem_suffixOfName (a : Char) (n : List Char) (h : a ∈ suffixOfName n) : a ∈ n := by
  unfold suffixOfName at h
  cases hr : revFind '.' n with
  | none =>
    rw [hr] at h
    replace h : a ∈ ([] : List Char) := h
    cases h
  | some i =>
    rw [hr] at h
    replace h : a ∈ (if 0 < i ∧ i < n.length - 1 then n.drop i else []) := h
    split_ifs at h with hc
    · exact List.mem_of_mem_drop h
    · cases h

theorem not_slash_nameOf (s : List Char) : '/' ∉ nameOf s := by
  intro h
  unfold nameOf at h
  rw [List.mem_reverse] at h
  have := List.mem_takeWhile_imp h
  simp at this

theorem takeWhile_append_of_all {p : Char → Bool} (a b : List Char)
    (h : ∀ x ∈ a, p x = true) : (a ++ b).takeWhile p = a ++ b.takeWhile p := by
  induction a with
  | nil => simp
  | cons x xs ih =>
    have hx : p x = true := h x (by simp)
    simp only [List.cons_append, List.takeWhile_cons, hx, if_true]
    rw [ih (fun y hy => h y (by simp [hy]))]

theorem nameOf_append_slash (a w : List Char) (hw : w ≠ []) (h : '/' ∉ w) :
    nameOf (a ++ '/' :: w) = w := by
  unfold nameOf
  rw [List.reverse_append, List.reverse_cons, List.append_assoc]
  cases hwr : w.reverse with
  | nil =>
    exact absurd (by simpa using congrArg List.reverse hwr) hw
  | cons y ys =>
    have hyw : y ∈ w := by
      rw [← List.mem_reverse, hwr]; simp
    have hy : ¬ (y = '/') := fun hc => h (hc ▸ hyw)
    simp only [List.singleton_append, List.cons_append, List.nil_append, List.dropWhile_cons]
    simp only [decide_eq_true_eq, hy, if_false]
    have hall : ∀ x ∈ y :: ys, (fun c => decide (c ≠ '/')) x = true := by
      intro x hx
      have hxw : x ∈ w := by rw [← List.mem_reverse, hwr]; exact hx
      simp only [decide_eq_true_eq]
      exact fun hc => h (hc ▸ hxw)
    rw [show y :: (ys ++ '/' :: a.reverse) = (y :: ys) ++ ('/' :: a.reverse) from rfl]
    rw [takeWhile_append_of_all _ _ hall]
    simp only [List.takeWhile_cons]
    simp only [decide_eq_true_eq]
    rw [if_neg (by simp)]
    rw [List.append_nil, ← hwr, List.reverse_reverse]

theorem suffixOfName_append (u t : List Char) (hu : u ≠ []) (hud : '.' ∉ u)
    (htd : '.' ∉ t) (ht : t ≠ []) :
    suffixOfName (u ++ '.' :: t) = '.' :: t := by
  unfold suffixOfName
  rw [revFind_append_cons '.' u t hud htd]
  have h1 : 0 < u.length := List.length_pos.mpr hu
  have h2 : u.length < (u ++ '.' :: t).length - 1 := by
    have h3 : 0 < t.length := List.length_pos.mpr ht
    simp only [List.length_append, List.length_cons]
    omega
  show (if 0 < u.length ∧ u.length < (u ++ '.' :: t).length - 1
        then List.drop u.length (u ++ '.' :: t) else []) = '.' :: t
  rw [if_pos ⟨h1, h2⟩, List.drop_left]

theorem str_toList_append (s t : String) : (s ++ t).toList = s.toList ++ t.toList := by
  cases s; cases t; rfl

/-! ## C7 — extension-based media classification -/

/-- C7: `detect_media_type` classifies purely by the lowercased file
extension of the path: it returns `"video"` exactly when that extension is
one of `.mp4/.mov/.avi/.mkv/.webm`, returns `"photo"` in every other case,
and the classification depends on nothing but the suffix of the path (no
content inspection). -/
theorem c7_extension_classification (p : String) :
    (detect_media_type p = "video" ↔
       strToLower (strSuffix p) ∈ [".mp4", ".mov", ".avi", ".mkv", ".webm"]) ∧
    (detect_media_type p = "photo" ↔
       strToLower (strSuffix p) ∉ [".mp4", ".mov", ".avi", ".mkv", ".webm"]) ∧
    (∀ q : String, strSuffix p = strSuffix q →
       detect_media_type p = detect_media_type q) := by
  refine ⟨?_, ?_, ?_⟩
  · unfold detect_media_type video_exts
    split_ifs with h
    · simp [h]
    · simp [h]
  · unfold detect_media_type video_exts
    split_ifs with h
    · simp [h]
    · simp [h]
  · intro q hq
    unfold detect_media_type
    rw [hq]

/-- Witness for C7 at concrete paths: a `.mp4` path is a video, an
uppercase `.MP4` path is a video, a `.txt` path is a photo, and two paths
sharing a suffix classify identically. -/
theorem c7_extension_classification_witness :
    detect_media_type "/tmp/u1.mp4" = "video" ∧
    detect_media_type "/tmp/u2.MP4" = "video" ∧
    detect_media_type "/tmp/u1.txt" = "photo" ∧
    detect_media_type "/tmp/a/x.gif" = detect_media_type "/tmp/b/y.gif" :=
  ⟨(c7_extension_classification "/tmp/u1.mp4").1.mpr (by decide),
   (c7_extension_classification "/tmp/u2.MP4").1.mpr (by decide),
   (c7_extension_classification "/tmp/u1.txt").2.1.mpr (by decide),
   (c7_extension_classification "/tmp/a/x.gif").2.2 "/tmp/b/y.gif" (by decide)⟩

/-! ## C10 — URLs with query strings -/

/-- C10 counterexample: the URL `https://cdn.example.com/clip.jpg?cache=1.mp4`
carries a query string after its `.jpg` extension, yet the downloaded
filename has suffix just `".mp4"` (the dot inside the query string wins the
`rfind`), so the job is classified as a video, not a photo. -/
theorem c10_counterexample :
    detect_media_type
        (download_media_path "u123" "https://cdn.example.com/clip.jpg?cache=1.mp4")
      = "video" ∧
    strSuffix "https://cdn.example.com/clip.jpg?cache=1.mp4" = ".mp4" := by
  constructor
  · decide
  · decide

/-- C10 (amended): for every job whose `media_url` has a pathlib suffix
containing a `?` — i.e. a query string follows the extension and contains
no further dot — the downloaded filename keeps that entire suffix
(extension plus query string); it then matches no video extension, so the
job is classified as a photo. -/
theorem c10_query_string_photo (uuid url : String)
    (h1 : uuid.toList ≠ []) (h2 : '.' ∉ uuid.toList) (h3 : '/' ∉ uuid.toList)
    (hq : '?' ∈ (strSuffix url).toList) :
    strSuffix (download_media_path uuid url) = strSuffix url ∧
    detect_media_type (download_media_path uuid url) = "photo" := by
  have hsfx : (strSuffix url).toList = suffixOfName (nameOf url.toList) := rfl
  rw [hsfx] at hq
  rcases suffixOfName_shape (nameOf url.toList) with hnil | ⟨t, hsf, htne, htd⟩
  · rw [hnil] at hq; cases hq
  · set sfx := suffixOfName (nameOf url.toList) with hdef
    have hslash : '/' ∉ sfx :=
      fun hc => not_slash_nameOf url.toList (mem_suffixOfName _ _ hc)
    have hpath : (download_media_path uuid url).toList
        = ['/', 't', 'm', 'p'] ++ '/' :: (uuid.toList ++ sfx) := rfl
    have hw_ne : uuid.toList ++ sfx ≠ [] := by
      intro hc
      exact h1 (List.append_eq_nil.mp hc).1
    have hw_slash : '/' ∉ uuid.toList ++ sfx := by
      intro hc
      rcases List.mem_append.mp hc with hc | hc
      exacts [h3 hc, hslash hc]
    have hname : nameOf (download_media_path uuid url).toList = uuid.toList ++ sfx := by
      rw [hpath]
      exact nameOf_append_slash _ _ hw_ne hw_slash
    have hsuf2 : suffixOfName (uuid.toList ++ sfx) = sfx := by
      rw [hsf]
      exact suffixOfName_append uuid.toList t h1 h2 htd htne
    have hmain : strSuffix (download_media_path uuid url) = strSuffix url := by
      show String.mk (suffixOfName (nameOf (download_media_path uuid url).toList))
          = String.mk sfx
      rw [hname, hsuf2]
    refine ⟨hmain, ?_⟩
    have hql : '?' ∈ (strToLower (strSuffix url)).toList := by
      show '?' ∈ sfx.map Char.toLower
      exact List.mem_map.mpr ⟨'?', hq, by decide⟩
    have hnot : strToLower (strSuffix url) ∉ video_exts := by
      intro hmem
      simp only [video_exts, List.mem_cons, List.not_mem_nil, or_false] at hmem
      rcases hmem with h5 | h5 | h5 | h5 | h5 <;>
        (rw [h5] at hql; exact absurd hql (by decide))
    unfold detect_media_type
    rw [hmain, if_neg hnot]

/-- Witness for C10 (amended) at the example shape given in the spec: a URL
ending `.mp4?sig=abc`. -/
theorem c10_query_string_photo_witness :
    strSuffix (download_media_path "u1" "https://x.example/v.mp4?sig=abc")
      = strSuffix "https://x.example/v.mp4?sig=abc" ∧
    detect_media_type (download_media_path "u1" "https://x.example/v.mp4?sig=abc")
      = "photo" :=
  c10_query_string_photo "u1" "https://x.example/v.mp4?sig=abc"
    (by decide) (by decide) (by decide) (by decide)

/-! ## C8 — audio-copy arguments in the ffmpeg commands -/

/-- C8: every video filter stage of the pipeline (stabilize, color grade,
transitions, reframe) builds its ffmpeg command with the explicit
`-c:a copy` audio-copy argument, while the local fallback of the upscale stage
command re-encodes without any audio-copy argument. -/
theorem c8_audio_copy_codec (input output : String) :
    hasAudioCopy (stabilize_video_cmd input output) = true ∧
    hasAudioCopy (apply_color_grade_cmd input output) = true ∧
    hasAudioCopy (add_transitions_cmd input output) = true ∧
    hasAudioCopy (reframe_to_mobile_cmd input output) = true ∧
    hasAudioCopy (upscale_fallback_cmd input output) = false := by
  refine ⟨?_, ?_, ?_, ?_, ?_⟩ <;>
    simp [hasAudioCopy, stabilize_video_cmd, apply_color_grade_cmd,
          add_transitions_cmd, reframe_to_mobile_cmd, upscale_fallback_cmd]

/-! ## C5 — music selection -/

/-- C5: every photo run that returns does so with `music_url = None`;
every video run that returns carries a `music_url` drawn from the fixed
3-item music library; and `select_music` ignores the video content (its
path argument) entirely. -/
theorem c5_music_url (penv : PhotoEnv) (dims : ImageDim)
    (uid oid mo tho : String) (venv : VideoEnv) (uid2 oid2 mo2 tho2 : String) :
    (∀ r, (enhance_photo penv dims uid oid mo tho).result = .ok r →
       r.music_url = none) ∧
    (∀ r, (enhance_video venv uid2 oid2 mo2 tho2).result = .ok r →
       r.music_url = some (music_library.getD venv.musicIdx.val "") ∧
       music_library.getD venv.musicIdx.val ""
         ∈ ["https://example.com/music/upbeat1.mp3",
            "https://example.com/music/chill1.mp3",
            "https://example.com/music/energetic1.mp3"]) ∧
    (∀ p q : String, ∀ c : Fin 3, select_music p c = select_music q c) := by
  refine ⟨?_, ?_, ?_⟩
  · intro r hr
    unfold enhance_photo at hr
    cases hai : ai_enhance penv dims with
    | error m => rw [hai] at hr; cases hr
    | ok d1 =>
      rw [hai] at hr
      split_ifs at hr <;> first
        | (exact Except.noConfusion hr)
        | (injection hr with hr2; rw [← hr2])
  · intro r hr
    have hmem : music_library.getD venv.musicIdx.val ""
        ∈ ["https://example.com/music/upbeat1.mp3",
           "https://example.com/music/chill1.mp3",
           "https://example.com/music/energetic1.mp3"] := by
      rcases venv.musicIdx with ⟨v, hv⟩
      show music_library.getD v "" ∈ _
      interval_cases v <;> decide
    unfold enhance_video at hr
    cases hup : upscale_video venv with
    | error m => rw [hup] at hr; split_ifs at hr
    | ok u =>
      rw [hup] at hr
      split_ifs at hr <;> first
        | (exact Except.noConfusion hr)
        | (injection hr with hr2; rw [← hr2]; exact ⟨rfl, hmem⟩)
  · intro p q c
    rfl

/-- Witness for C5: a concrete all-success photo run has no music URL, and
a concrete all-success video run (random draw 1) carries the second
library track. -/
theorem c5_music_url_witness :
    (⟨upload_to_storage_url "processed_media" "u" "m" "jpg",
      upload_to_storage_url "thumbnails" "u" "t" "jpg",
      none, "enhanced"⟩ : EnhancementResult).music_url = none ∧
    ((⟨upload_to_storage_url "processed_media" "u" "m" "mp4",
       upload_to_storage_url "thumbnails" "u" "t" "jpg",
       some "https://example.com/music/chill1.mp3", "cinematic"⟩ :
        EnhancementResult).music_url
      = some (music_library.getD (1 : Fin 3).val "") ∧
     music_library.getD (1 : Fin 3).val ""
       ∈ ["https://example.com/music/upbeat1.mp3",
          "https://example.com/music/chill1.mp3",
          "https://example.com/music/energetic1.mp3"]) ∧
    select_music "/tmp/a.mp4" 2 = select_music "/tmp/b.mp4" 2 :=
  ⟨(c5_music_url ⟨true, ⟨8, 6⟩, true, true, true, true, true, true⟩ ⟨4, 3⟩
      "u" "oid" "m" "t"
      ⟨true, true, true, true, true, true, true, 1, true, true⟩
      "u" "oid" "m" "t").1 _ (by decide),
   (c5_music_url ⟨true, ⟨8, 6⟩, true, true, true, true, true, true⟩ ⟨4, 3⟩
      "u" "oid" "m" "t"
      ⟨true, true, true, true, true, true, true, 1, true, true⟩
      "u" "oid" "m" "t").2.1 _ (by decide),
   (c5_music_url ⟨true, ⟨8, 6⟩, true, true, true, true, true, true⟩ ⟨4, 3⟩
      "u" "oid" "m" "t"
      ⟨true, true, true, true, true, true, true, 1, true, true⟩
      "u" "oid" "m" "t").2.2 "/tmp/a.mp4" "/tmp/b.mp4" 2⟩

/-! ## C4 — photo pipeline completes under total AI failure -/

/-- C4: if the AI super-resolution capability fails on every call but the
local operations succeed, the photo pipeline still completes without
error using the PIL resize fallback, and the enhanced-stage image is at
least 2× the original in each dimension (exactly 2× here). -/
theorem c4_ai_failure_fallback (env : PhotoEnv) (dims : ImageDim)
    (uid oid mo tho : String)
    (hai : env.aiOk = false) (hfb : env.aiFallbackOk = true)
    (hc : env.colorOk = true) (hf : env.filtersOk = true)
    (ht : env.thumbOk = true)
    (hu1 : env.uploadMediaOk = true) (hu2 : env.uploadThumbOk = true) :
    exceptIsOk (enhance_photo env dims uid oid mo tho).result = true ∧
    (enhance_photo env dims uid oid mo tho).enhancedDims
      = some ⟨dims.width * 2, dims.height * 2⟩ ∧
    (∀ d, (enhance_photo env dims uid oid mo tho).enhancedDims = some d →
       2 * dims.width ≤ d.width ∧ 2 * dims.height ≤ d.height) := by
  have he : ai_enhance env dims = .ok ⟨dims.width * 2, dims.height * 2⟩ := by
    simp [ai_enhance, hai, hfb]
  have h2 : (enhance_photo env dims uid oid mo tho).enhancedDims
      = some ⟨dims.width * 2, dims.height * 2⟩ := by
    unfold enhance_photo
    rw [he]
    simp [hc, hf, ht, hu1, hu2]
  refine ⟨?_, h2, ?_⟩
  · unfold enhance_photo
    rw [he]
    simp [hc, hf, ht, hu1, hu2, exceptIsOk]
  · intro d hd
    rw [h2] at hd
    injection hd with h3
    rw [← h3]
    constructor
    · show 2 * dims.width ≤ dims.width * 2
      omega
    · show 2 * dims.height ≤ dims.height * 2
      omega

/-- Witness for C4: a 30×40 input with the AI capability always failing
completes and is enhanced to exactly 60×80. -/
theorem c4_ai_failure_fallback_witness :
    exceptIsOk (enhance_photo ⟨false, ⟨999, 999⟩, true, true, true, true, true, true⟩
        ⟨30, 40⟩ "u" "oid" "m" "t").result = true ∧
    (enhance_photo ⟨false, ⟨999, 999⟩, true, true, true, true, true, true⟩
        ⟨30, 40⟩ "u" "oid" "m" "t").enhancedDims = some ⟨60, 80⟩ ∧
    (∀ d, (enhance_photo ⟨false, ⟨999, 999⟩, true, true, true, true, true, true⟩
        ⟨30, 40⟩ "u" "oid" "m" "t").enhancedDims = some d →
       2 * 30 ≤ d.width ∧ 2 * 40 ≤ d.height) :=
  c4_ai_failure_fallback ⟨false, ⟨999, 999⟩, true, true, true, true, true, true⟩
    ⟨30, 40⟩ "u" "oid" "m" "t" rfl rfl rfl rfl rfl rfl rfl

/-! ## C1 — temp-file cleanup -/

theorem cleanup_loop_self (l : List String) : cleanup_loop l l = [] := by
  unfold cleanup_loop
  apply List.filter_eq_nil_iff.mpr
  intro a ha
  simp
  exact ha

/-- C1 counterexample: the claim "zero workspace temp files remain on
every exit path" is false.  In a photo run where all four stages succeed
but the media upload raises, the exception propagates before the cleanup
loop, leaving all four staged files on disk (the video pipeline has the
same structure). -/
theorem c1_counterexample :
    ¬ (∀ (penv : PhotoEnv) (venv : VideoEnv) (dims : ImageDim)
          (uid oid mo tho : String),
        (enhance_photo penv dims uid oid mo tho).filesRemaining = [] ∧
        (enhance_video venv uid oid mo tho).filesRemaining = []) := by
  intro h
  have h2 := (h ⟨true, ⟨8, 6⟩, true, true, true, true, false, true⟩
      ⟨true, true, true, true, true, true, true, 0, true, true⟩
      ⟨4, 3⟩ "u" "oid" "m" "t").1
  exact absurd h2 (by decide)

/-- C1 (amended): the cleanup loop removes every workspace slot file when
the pipeline run completes normally; on an exception exit the files
created before the failing step remain on disk (cleanup is not on the
exception path). -/
theorem c1_cleanup_on_success (penv : PhotoEnv) (venv : VideoEnv)
    (dims : ImageDim) (uid oid mo tho : String) :
    (exceptIsOk (enhance_photo penv dims uid oid mo tho).result = true →
       (enhance_photo penv dims uid oid mo tho).filesRemaining = []) ∧
    (exceptIsOk (enhance_video venv uid oid mo tho).result = true →
       (enhance_video venv uid oid mo tho).filesRemaining = []) := by
  constructor
  · intro h
    obtain ⟨ai, ad, afb, c, f, t, u1, u2⟩ := penv
    cases ai <;> cases afb <;> cases c <;> cases f <;> cases t <;>
      cases u1 <;> cases u2 <;>
      first
        | exact Bool.noConfusion h
        | exact cleanup_loop_self _
  · intro h
    obtain ⟨st, gr, ai, fb, tr, rf, th, mi, um, ut⟩ := venv
    cases st <;> cases gr <;> cases ai <;> cases fb <;> cases tr <;>
      cases rf <;> cases th <;> cases um <;> cases ut <;>
      first
        | exact Bool.noConfusion h
        | exact cleanup_loop_self _

/-- Witness for C1 (amended): concrete all-success photo and video runs
leave no temp files. -/
theorem c1_cleanup_on_success_witness :
    (enhance_photo ⟨true, ⟨8, 6⟩, true, true, true, true, true, true⟩
        ⟨4, 3⟩ "u" "oid" "m" "t").filesRemaining = [] ∧
    (enhance_video ⟨true, true, true, true, true, true, true, 0, true, true⟩
        "u" "oid" "m" "t").filesRemaining = [] :=
  ⟨(c1_cleanup_on_success ⟨true, ⟨8, 6⟩, true, true, true, true, true, true⟩
      ⟨true, true, true, true, true, true, true, 0, true, true⟩
      ⟨4, 3⟩ "u" "oid" "m" "t").1 (by decide),
   (c1_cleanup_on_success ⟨true, ⟨8, 6⟩, true, true, true, true, true, true⟩
      ⟨true, true, true, true, true, true, true, 0, true, true⟩
      ⟨4, 3⟩ "u" "oid" "m" "t").2 (by decide)⟩

/-! ## C6 — stage-fatal errors and orchestrator surfacing -/

/-- C6: when both the primary and the fallback of the video upscale stage
fail, the stage error terminates the pipeline run; the orchestrator
surfaces a download failure, and any stage-fatal pipeline error, to the
caller as a single HTTP-500 failure carrying the exception message, with
no partial result (every error `process_media` returns has status 500). -/
theorem c6_stage_fatal_surfaced (env : OrchEnv) (job : Job) (uuid : String)
    (dims : ImageDim) (oid mo tho : String) :
    (env.videoEnv.aiOk = false → env.videoEnv.upscaleFallbackOk = false →
       exceptIsOk (enhance_video env.videoEnv job.user_id oid mo tho).result = false) ∧
    (env.downloadOk = false →
       process_media env job uuid dims oid mo tho = .error ⟨500, "download failed"⟩) ∧
    (∀ e, process_media env job uuid dims oid mo tho = .error e → e.status = 500) ∧
    (env.downloadOk = true →
     detect_media_type (download_media_path uuid job.media_url) = "video" →
     env.videoEnv.aiOk = false → env.videoEnv.upscaleFallbackOk = false →
       ∃ m, process_media env job uuid dims oid mo tho = .error ⟨500, m⟩) := by
  have hstage : env.videoEnv.aiOk = false → env.videoEnv.upscaleFallbackOk = false →
      exceptIsOk (enhance_video env.videoEnv job.user_id oid mo tho).result = false := by
    intro h1 h2
    have hu : upscale_video env.videoEnv = .error "upscale_video failed: CalledProcessError" := by
      simp [upscale_video, h1, h2]
    cases hst : env.videoEnv.stabilizeOk <;>
      cases hgr : env.videoEnv.gradeOk <;>
        simp [enhance_video, hu, hst, hgr, exceptIsOk]
  refine ⟨hstage, ?_, ?_, ?_⟩
  · intro h
    simp [process_media, process_media_body, h]
  · intro e he
    unfold process_media at he
    cases hb : process_media_body env job uuid dims oid mo tho with
    | ok r =>
      rw [hb] at he
      cases he
    | error m =>
      rw [hb] at he
      injection he with h2
      rw [← h2]
  · intro hd hdet h1 h2
    obtain ⟨rm, hreserr⟩ :
        ∃ m, (enhance_video env.videoEnv job.user_id oid mo tho).result = .error m := by
      have hfalse := hstage h1 h2
      cases hres : (enhance_video env.videoEnv job.user_id oid mo tho).result with
      | ok r =>
        rw [hres] at hfalse
        simp [exceptIsOk] at hfalse
      | error m => exact ⟨m, rfl⟩
    have hdisp : dispatched_run env job uuid dims oid mo tho
        = enhance_video env.videoEnv job.user_id oid mo tho := by
      simp [dispatched_run, hdet]
    refine ⟨rm, ?_⟩
    simp [process_media, process_media_body, hd, hdisp, hreserr]

/-- Witness for C6: a run whose video upscale primary and fallback both
fail aborts; a failed download surfaces as a 500 with its message and
status 500; a video job with a doubly-failed upscale surfaces as a 500. -/
theorem c6_stage_fatal_surfaced_witness :
    exceptIsOk (enhance_video
        (⟨true, true, false, false, true, true, true, 0, true, true⟩ : VideoEnv)
        "u" "oid" "m" "t").result = false ∧
    process_media
        (⟨false, ⟨true, ⟨8, 6⟩, true, true, true, true, true, true⟩,
          ⟨true, true, true, true, true, true, true, 0, true, true⟩,
          .returns "d", .parsed (.jlist ["a"])⟩ : OrchEnv)
        ⟨"j1", "https://x.example/a.jpg", "u"⟩ "u1" ⟨4, 3⟩ "oid" "m" "t"
      = .error ⟨500, "download failed"⟩ ∧
    (⟨500, "download failed"⟩ : HTTPErr).status = 500 ∧
    (∃ m, process_media
        (⟨true, ⟨true, ⟨8, 6⟩, true, true, true, true, true, true⟩,
          ⟨true, true, false, false, true, true, true, 0, true, true⟩,
          .returns "d", .parsed (.jlist ["a"])⟩ : OrchEnv)
        ⟨"j2", "https://x.example/v.mp4", "u"⟩ "u1" ⟨4, 3⟩ "oid" "m" "t"
      = .error ⟨500, m⟩) :=
  ⟨(c6_stage_fatal_surfaced
      ⟨true, ⟨true, ⟨8, 6⟩, true, true, true, true, true, true⟩,
        ⟨true, true, false, false, true, true, true, 0, true, true⟩,
        .returns "d", .parsed (.jlist ["a"])⟩
      ⟨"j2", "https://x.example/v.mp4", "u"⟩ "u1" ⟨4, 3⟩ "oid" "m" "t").1 rfl rfl,
   (c6_stage_fatal_surfaced
      ⟨false, ⟨true, ⟨8, 6⟩, true, true, true, true, true, true⟩,
        ⟨true, true, true, true, true, true, true, 0, true, true⟩,
        .returns "d", .parsed (.jlist ["a"])⟩
      ⟨"j1", "https://x.example/a.jpg", "u"⟩ "u1" ⟨4, 3⟩ "oid" "m" "t").2.1 rfl,
   (c6_stage_fatal_surfaced
      ⟨false, ⟨true, ⟨8, 6⟩, true, true, true, true, true, true⟩,
        ⟨true, true, true, true, true, true, true, 0, true, true⟩,
        .returns "d", .parsed (.jlist ["a"])⟩
      ⟨"j1", "https://x.example/a.jpg", "u"⟩ "u1" ⟨4, 3⟩ "oid" "m" "t").2.2.1
     ⟨500, "download failed"⟩
     ((c6_stage_fatal_surfaced
        ⟨false, ⟨true, ⟨8, 6⟩, true, true, true, true, true, true⟩,
          ⟨true, true, true, true, true, true, true, 0, true, true⟩,
          .returns "d", .parsed (.jlist ["a"])⟩
        ⟨"j1", "https://x.example/a.jpg", "u"⟩ "u1" ⟨4, 3⟩ "oid" "m" "t").2.1 rfl),
   (c6_stage_fatal_surfaced
      ⟨true, ⟨true, ⟨8, 6⟩, true, true, true, true, true, true⟩,
        ⟨true, true, false, false, true, true, true, 0, true, true⟩,
        .returns "d", .parsed (.jlist ["a"])⟩
      ⟨"j2", "https://x.example/v.mp4", "u"⟩ "u1" ⟨4, 3⟩ "oid" "m" "t").2.2.2
     rfl (by decide) rfl rfl⟩

/-! ## C3 — caption engine never raises; fallback scope -/

/-- C3 counterexample: the claim that malformed (non-list) capability
content yields exactly the 5-item fallback list is false — content that
parses as a JSON *string* is returned unchanged, not replaced by the
fallback. -/
theorem c3_counterexample :
    ¬ (∀ (d : DescribeOutcome) (s : String),
        generate_captions d (.parsed (.jstr s)) = .ok (.jlist fallback_captions)) := by
  intro h
  have h2 := h (.returns "a sunset photo") "oops"
  exact absurd h2 (by decide)

/-- C3 (amended): `generate_captions` never raises — for every behaviour
of the description and caption capabilities it returns a value: the fixed
5-item fallback list exactly when the caption call raised or its content
failed to parse as JSON, and otherwise the parsed JSON value unchanged,
even when that value is not a list. -/
theorem c3_never_raises (d : DescribeOutcome) (c : CaptionOutcome) :
    exceptIsOk (generate_captions d c) = true ∧
    (c = .raises ∨ c = .unparseable →
       generate_captions d c = .ok (.jlist fallback_captions)) ∧
    (∀ v, c = .parsed v → generate_captions d c = .ok v) := by
  refine ⟨?_, ?_, ?_⟩
  · cases c <;> rfl
  · rintro (rfl | rfl) <;> rfl
  · rintro v rfl
    rfl

/-- Witness for C3 (amended): concrete behaviours — a raising caption
call falls back to the 5 fixed captions; parsed non-list content is
passed through. -/
theorem c3_never_raises_witness :
    exceptIsOk (generate_captions .raises .raises) = true ∧
    generate_captions .raises .raises = .ok (.jlist fallback_captions) ∧
    generate_captions (.returns "d") (.parsed (.jstr "notalist"))
      = .ok (.jstr "notalist") :=
  ⟨(c3_never_raises .raises .raises).1,
   (c3_never_raises .raises .raises).2.1 (Or.inl rfl),
   (c3_never_raises (.returns "d") (.parsed (.jstr "notalist"))).2.2 _ rfl⟩

/-! ## C2 / C9 — caption fields of the final result -/

/-- C2 counterexample: it is not true that every `FinalResult` returned by
`process_media` has a 1-to-5-element caption list whose head is the
primary caption — an empty parsed caption list is passed through, giving
`captions = []`. -/
theorem c2_counterexample :
    ¬ (∀ (env : OrchEnv) (job : Job) (uuid : String) (dims : ImageDim)
          (oid mo tho : String) (r : FinalResult),
        process_media env job uuid dims oid mo tho = .ok r →
        ∃ x xs, r.captions = .jlist (x :: xs) ∧ xs.length + 1 ≤ 5 ∧
          r.caption = x) := by
  intro h
  obtain ⟨x, xs, hx, hlen, hcap⟩ :=
    h ⟨true, ⟨true, ⟨8, 6⟩, true, true, true, true, true, true⟩,
        ⟨true, true, true, true, true, true, true, 0, true, true⟩,
        .returns "d", .parsed (.jlist [])⟩
      ⟨"j1", "https://cdn.example.com/a.jpg", "u"⟩ "u1" ⟨4, 3⟩ "oid" "m" "t"
      ⟨upload_to_storage_url "processed_media" "u" "m" "jpg",
       upload_to_storage_url "thumbnails" "u" "t" "jpg",
       "", .jlist [], none, "enhanced", "photo"⟩
      (by decide)
  simp at hx

/-- Structure of every successful `process_media` result: the captions
field is exactly the value `generate_captions` returned and the caption
field is exactly the value of `captions[0] if captions else ""`. -/
theorem process_media_ok_spec (env : OrchEnv) (job : Job) (uuid : String)
    (dims : ImageDim) (oid mo tho : String) (r : FinalResult)
    (hr : process_media env job uuid dims oid mo tho = .ok r) :
    ∃ captions cap,
      generate_captions env.describeB env.captionB = .ok captions ∧
      caption_step captions = .ok cap ∧
      r.captions = captions ∧ r.caption = cap := by
  unfold process_media at hr
  cases hb : process_media_body env job uuid dims oid mo tho with
  | error m =>
    rw [hb] at hr
    cases hr
  | ok r2 =>
    rw [hb] at hr
    injection hr with h2
    unfold process_media_body at hb
    cases hd : env.downloadOk with
    | false =>
      rw [hd] at hb
      exact Except.noConfusion hb
    | true =>
      rw [hd] at hb
      cases hrun : (dispatched_run env job uuid dims oid mo tho).result with
      | error m =>
        rw [hrun] at hb
        exact Except.noConfusion hb
      | ok r0 =>
        rw [hrun] at hb
        cases hg : generate_captions env.describeB env.captionB with
        | error m =>
          rw [hg] at hb
          exact Except.noConfusion hb
        | ok captions =>
          rw [hg] at hb
          replace hb :
              (match caption_step captions with
               | Except.error m => (Except.error m : Except String FinalResult)
               | Except.ok cap =>
                 Except.ok { media_url := r0.media_url
                           , thumbnail_url := r0.thumbnail_url
                           , caption := cap
                           , captions := captions
                           , music_url := r0.music_url
                           , ai_style := r0.ai_style
                           , media_type :=
                               detect_media_type (download_media_path uuid job.media_url) })
              = Except.ok r2 := hb
          cases hcs : caption_step captions with
          | error m =>
            rw [hcs] at hb
            exact Except.noConfusion hb
          | ok cap =>
            rw [hcs] at hb
            injection hb with h3
            refine ⟨captions, cap, rfl, hcs, ?_, ?_⟩
            · rw [← h2, ← h3]
            · rw [← h2, ← h3]

/-- C2 (amended): for every job for which `process_media` returns a
`FinalResult`, the caption field equals `captions[0]` when the captions
list is non-empty and the empty string when it is empty; and whenever
caption generation failed (call raised or output unparseable), the
captions field is the fixed 5-item fallback list — so the 1-to-5 length
bound and `caption = captions[0]` hold in exactly those runs, but a
parsed list of any other length (e.g. empty) is passed through
unchanged. -/
theorem c2_caption_head (env : OrchEnv) (job : Job) (uuid : String)
    (dims : ImageDim) (oid mo tho : String) (r : FinalResult)
    (hr : process_media env job uuid dims oid mo tho = .ok r) :
    ((env.captionB = .raises ∨ env.captionB = .unparseable) →
       r.captions = .jlist fallback_captions ∧
       r.caption = "✨ Capturing the vibe" ∧
       1 ≤ fallback_captions.length ∧ fallback_captions.length ≤ 5) ∧
    (∀ xs, r.captions = .jlist xs → r.caption = xs.headD "") := by
  obtain ⟨captions, cap, hg, hcs, hrc, hrcap⟩ :=
    process_media_ok_spec env job uuid dims oid mo tho r hr
  constructor
  · intro hcb
    have hgen : generate_captions env.describeB env.captionB
        = .ok (.jlist fallback_captions) := by
      rcases hcb with h | h <;> rw [h] <;> rfl
    rw [hgen] at hg
    injection hg with h4
    subst h4
    have hcs2 : Except.ok "✨ Capturing the vibe" = Except.ok cap := hcs
    injection hcs2 with h5
    refine ⟨?_, ?_, by decide, by decide⟩
    · rw [hrc]
    · rw [hrcap, ← h5]
  · intro xs hxs
    rw [hrc] at hxs
    subst hxs
    cases xs with
    | nil =>
      have hcs2 : Except.ok "" = Except.ok cap := hcs
      injection hcs2 with h5
      rw [hrcap, ← h5]
      rfl
    | cons x xs2 =>
      have hcs2 : Except.ok x = Except.ok cap := hcs
      injection hcs2 with h5
      rw [hrcap, ← h5]
      rfl

/-- Witness for C2 (amended): a concrete run whose caption call raises
returns the 5 fallback captions with the first as primary caption. -/
theorem c2_caption_head_witness :
    (⟨upload_to_storage_url "processed_media" "u" "m" "jpg",
      upload_to_storage_url "thumbnails" "u" "t" "jpg",
      "✨ Capturing the vibe", .jlist fallback_captions, none, "enhanced",
      "photo"⟩ : FinalResult).captions = .jlist fallback_captions ∧
    (⟨upload_to_storage_url "processed_media" "u" "m" "jpg",
      upload_to_storage_url "thumbnails" "u" "t" "jpg",
      "✨ Capturing the vibe", .jlist fallback_captions, none, "enhanced",
      "photo"⟩ : FinalResult).caption = "✨ Capturing the vibe" ∧
    1 ≤ fallback_captions.length ∧ fallback_captions.length ≤ 5 :=
  (c2_caption_head
    ⟨true, ⟨true, ⟨8, 6⟩, true, true, true, true, true, true⟩,
      ⟨true, true, true, true, true, true, true, 0, true, true⟩,
      .returns "d", .raises⟩
    ⟨"j1", "https://cdn.example.com/a.jpg", "u"⟩ "u1" ⟨4, 3⟩ "oid" "m" "t"
    ⟨upload_to_storage_url "processed_media" "u" "m" "jpg",
     upload_to_storage_url "thumbnails" "u" "t" "jpg",
     "✨ Capturing the vibe", .jlist fallback_captions, none, "enhanced",
     "photo"⟩
    (by decide)).1 (Or.inl rfl)

/-- C9: if the caption generator returns an (empty) parsed list, the
orchestrator does not raise on the `captions[0]` lookup: the guard
`if captions` routes to the empty string, and `process_media` returns a
result whose caption is `""` and whose captions list is `[]`. -/
theorem c9_empty_caption_list (env : OrchEnv) (job : Job) (uuid : String)
    (dims : ImageDim) (oid mo tho : String)
    (hc : env.captionB = .parsed (.jlist []))
    (hd : env.downloadOk = true)
    (hrun : exceptIsOk (dispatched_run env job uuid dims oid mo tho).result = true) :
    ∃ r, process_media env job uuid dims oid mo tho = .ok r ∧
      r.caption = "" ∧ r.captions = .jlist [] := by
  obtain ⟨r0, hr0⟩ :
      ∃ r0, (dispatched_run env job uuid dims oid mo tho).result = .ok r0 := by
    cases hres : (dispatched_run env job uuid dims oid mo tho).result with
    | ok r0 => exact ⟨r0, rfl⟩
    | error m =>
      rw [hres] at hrun
      simp [exceptIsOk] at hrun
  refine ⟨⟨r0.media_url, r0.thumbnail_url, "", .jlist [], r0.music_url,
           r0.ai_style,
           detect_media_type (download_media_path uuid job.media_url)⟩,
          ?_, rfl, rfl⟩
  unfold process_media process_media_body
  rw [hd, hr0, hc]
  rfl

/-- Witness for C9: a concrete photo job whose caption capability returns
an empty parsed list yields `caption = ""`, `captions = []`. -/
theorem c9_empty_caption_list_witness :
    ∃ r, process_media
        (⟨true, ⟨true, ⟨8, 6⟩, true, true, true, true, true, true⟩,
          ⟨true, true, true, true, true, true, true, 0, true, true⟩,
          .returns "d", .parsed (.jlist [])⟩ : OrchEnv)
        ⟨"j1", "https://cdn.example.com/a.jpg", "u"⟩ "u1" ⟨4, 3⟩ "oid" "m" "t"
      = .ok r ∧ r.caption = "" ∧ r.captions = .jlist [] :=
  c9_empty_caption_list
    ⟨true, ⟨true, ⟨8, 6⟩, true, true, true, true, true, true⟩,
      ⟨true, true, true, true, true, true, true, 0, true, true⟩,
      .returns "d", .parsed (.jlist [])⟩
    ⟨"j1", "https://cdn.example.com/a.jpg", "u"⟩ "u1" ⟨4, 3⟩ "oid" "m" "t"
    rfl rfl (by decide)
